import Mathlib

/-!
Verification of the dialogue state machine of a Telegram sales-qualification
bot: a shallow embedding of `bot/handlers.py`, `bot/lead_store.py` and
`bot/llm_client.py`.  Python dicts over string keys are modelled as
insertion-ordered association lists, the global `dialog_states` mapping as a
function from chat ids to optional session records, the CSV lead file as an
optional list of rows, and the two external effects (the LLM completion call
and lead-file I/O) as explicit oracle parameters.
-/

namespace LlmStart

/-- The `state['stage']` string values used in handlers.py. -/
inductive Stage where
  | greeting
  | qualifying
  | offering
  | collecting_contact
  | done
deriving DecidableEq, Repr

/-- Python dict membership/lookup (`k in d`, `d.get(k)`) on a string-keyed dict
modelled as an insertion-ordered association list. -/
def dictGet (d : List (String × String)) (k : String) : Option String :=
  (d.find? (fun p => p.1 == k)).map (fun p => p.2)

/-- Python dict assignment `d[k] = v`: overwrite in place when the key exists,
otherwise append, preserving insertion order. -/
def dictInsert (d : List (String × String)) (k v : String) :
    List (String × String) :=
  if (d.find? (fun p => p.1 == k)).isSome then
    d.map (fun p => if p.1 == k then (k, v) else p)
  else d ++ [(k, v)]

/-- Restriction of Python `str.lower()` to the Latin and Cyrillic letters that
occur in the bot's token sets (ASCII A–Z, А–Я, Ё). -/
def pyLowerChar (c : Char) : Char :=
  if c.toNat ≥ 65 ∧ c.toNat ≤ 90 then Char.ofNat (c.toNat + 32)
  else if c.toNat ≥ 0x410 ∧ c.toNat ≤ 0x42F then Char.ofNat (c.toNat + 0x20)
  else if c.toNat = 0x401 then Char.ofNat 0x451
  else c

/-- Python `text.lower()`. -/
def pyLower (s : String) : String := ⟨s.data.map pyLowerChar⟩

/-- Python `text.strip()`: drop whitespace from both ends. -/
def pyStrip (s : String) : String :=
  ⟨((s.data.dropWhile Char.isWhitespace).reverse.dropWhile Char.isWhitespace).reverse⟩

/-- One per-chat session record: an entry of handlers.py `dialog_states`.
`started_at` keeps the creation instant as an abstract clock value. -/
structure DialogState where
  stage : Stage
  answers : List (String × String)
  last_llm_suggestion : String
  started_at : Nat
deriving DecidableEq, Repr

/-- The fresh record built at session creation and on reset
(handlers.py lines 24–29, 123–128, 163–168). -/
def freshState (now : Nat) : DialogState :=
  { stage := .greeting, answers := [], last_llm_suggestion := "", started_at := now }

/-- The global in-memory `dialog_states` mapping. -/
abbrev StateMap : Type := Int → Option DialogState

/-- Python `dialog_states[chat_id] = st`. -/
def setState (m : StateMap) (chat_id : Int) (st : DialogState) : StateMap :=
  fun c => if c = chat_id then some st else m c

/-- handlers.py `get_dialog_state`: create a fresh record on first contact,
returning the (possibly extended) mapping together with the record. -/
def get_dialog_state (m : StateMap) (chat_id : Int) (now : Nat) :
    StateMap × DialogState :=
  match m chat_id with
  | some st => (m, st)
  | none => (setState m chat_id (freshState now), freshState now)

/-- handlers.py `is_returning_user`: an unfinished session exists
(`current_stage not in ['done', 'greeting']`). -/
def is_returning_user (m : StateMap) (chat_id : Int) : Bool :=
  match m chat_id with
  | none => false
  | some st =>
      match st.stage with
      | .done => false
      | .greeting => false
      | _ => true

/-- handlers.py `update_dialog_stage`. -/
def update_dialog_stage (m : StateMap) (chat_id : Int) (s : Stage) (now : Nat) :
    StateMap :=
  let r := get_dialog_state m chat_id now
  setState r.1 chat_id { r.2 with stage := s }

/-- handlers.py `save_answer`. -/
def save_answer (m : StateMap) (chat_id : Int) (q a : String) (now : Nat) :
    StateMap :=
  let r := get_dialog_state m chat_id now
  setState r.1 chat_id { r.2 with answers := dictInsert r.2.answers q a }

/-- handlers.py `get_continuation_message`, as a function of the (existing)
session record it reads through `get_dialog_state`. -/
def get_continuation_message (st : DialogState) : String :=
  match st.stage with
  | .qualifying =>
      if dictGet st.answers "intent" = none then
        "Продолжим нашу беседу! Расскажите, что вас интересует?"
      else if dictGet st.answers "budget" = none then
        "Какой у вас примерный бюджет на этот проект?"
      else if dictGet st.answers "timeline" = none then
        "Когда бы вы хотели получить готовый результат?"
      else if dictGet st.answers "priority" = none then
        "Что для вас наиболее важно в этом проекте?"
      else "Продолжим нашу беседу!"
  | .offering => "Хотели бы оставить контакт для обсуждения деталей?"
  | .collecting_contact => "Пожалуйста, оставьте ваш контакт для связи."
  | _ => "Продолжим нашу беседу!"

/-! ### Outbound message texts (handlers.py literals)

Keyboard markup attached to a send is transport rendering, outside the core;
each `message.answer(...)` call is modelled as one sent text. -/

def WELCOME_TEXT : String :=
  "👋 Привет! Я помогу вам выбрать подходящие IT-услуги.\n\nРасскажите, пожалуйста, что вас интересует? Например, нужен ли вам сайт, мобильное приложение или автоматизация процессов?"

def BUDGET_QUESTION : String :=
  "Понятно! А какой у вас примерный бюджет на этот проект? Это поможет мне подобрать оптимальное решение."

def TIMELINE_QUESTION : String :=
  "Отлично! А когда бы вы хотели получить готовый результат? Это поможет спланировать работу."

def PRIORITY_QUESTION : String :=
  "Понятно! А что для вас наиболее важно в этом проекте? Например, скорость разработки, качество, уникальный дизайн или что-то другое?"

def CONTACT_REQUEST : String :=
  "Отлично! Пожалуйста, оставьте ваш контакт для связи:\n• Телефон\n• Telegram username\n• Email\n\nНапишите любой удобный способ связи."

def FAREWELL : String :=
  "Понятно! Если передумаете, всегда можете написать /start для новой консультации. Удачи! 😊"

/-- The success-path acknowledgment (handlers.py lines 394–399, sent when
`save_lead_from_dialog` returned true). -/
def ACK_SAVED : String :=
  "✅ Спасибо! Ваш контакт сохранен.\n\nНаш менеджер свяжется с вами в ближайшее время для обсуждения деталей проекта.\n\nЕсли у вас есть вопросы, пишите /start для новой консультации!"

/-- The degraded acknowledgment (handlers.py lines 402–406 and 411–415, sent
when the lead write failed or the try block raised). -/
def ACK_RECEIVED : String :=
  "✅ Спасибо! Ваш контакт получен.\n\nНаш менеджер свяжется с вами в ближайшее время.\n\nЕсли у вас есть вопросы, пишите /start для новой консультации!"

/-- Modelled from the spec: `bot/prompt.py` is not among the provided sources.
The glossary defines the fallback as "the fixed substitute text returned when
an external call fails"; it is modelled as a fixed non-empty message, and no
claim depends on its exact wording. -/
def FALLBACK_MESSAGE : String :=
  "Извините, сейчас не могу ответить. Попробуйте, пожалуйста, позже."

/-- Modelled from the spec: the fixed recommendation instruction imported from
`bot/prompt.py` (the recommendation-request construction of §4.2). No claim
depends on its wording. -/
def RECOMMENDATION_PROMPT : String :=
  "Подбери подходящие IT-услуги для клиента на основе его ответов."

/-! ### LLM gateway (`bot/llm_client.py`) -/

/-- Observable outcome of one `chat.completions.create` call: the transport
raised, the response had no choices, or it carried `message.content`
(which the OpenAI API allows to be absent). -/
inductive LLMOutcome where
  | raises
  | emptyChoices
  | content (c : Option String)
deriving DecidableEq, Repr

/-- llm_client.py `LLMClient.ask_question`, with the completion call's outcome
as an explicit parameter.  When `message.content` is `None` the source calls
`len(answer)` on it (line 78), raising `TypeError` inside the `try`, so that
case also reaches the fallback branch; when the content is the empty string,
`answer or "Извините, не удалось получить ответ."` picks the second operand. -/
def ask_question (o : LLMOutcome) (question : String) : String :=
  match o with
  | .raises => FALLBACK_MESSAGE
  | .emptyChoices => FALLBACK_MESSAGE
  | .content none => FALLBACK_MESSAGE
  | .content (some s) =>
      if s = "" then "Извините, не удалось получить ответ." else s

/-- llm_client.py `LLMClient.__init__` configuration gate (lines 22–29):
a missing or empty `LLM_BASE_URL` or `LLM_API_KEY` raises `RuntimeError`
(`os.getenv` yields `None` when unset, and `not x` is true for both `None`
and the empty string).  The construction of the underlying OpenAI SDK client
is external I/O outside this embedding. -/
def LLMClient.init (base_url api_key : Option String) : Except String Unit :=
  if base_url.getD "" = "" ∨ api_key.getD "" = "" then
    .error "LLM_BASE_URL и LLM_API_KEY должны быть установлены в .env"
  else .ok ()

/-! ### Lead sink (`bot/lead_store.py`) -/

/-- The CSV lead file: `none` when the file does not exist, otherwise the list
of its rows (header included), each row a list of cells. -/
structure FileState where
  rows : Option (List (List String))
deriving DecidableEq, Repr

/-- lead_store.py `self.fieldnames`, also the header row written on creation. -/
def FIELDNAMES : List String :=
  ["timestamp", "chat_id", "client_name", "contact", "intent", "notes", "source", "status"]

/-- lead_store.py `LeadStore._ensure_csv_exists` (run from `__init__`): create
the CSV with the header row when the file does not exist; on an I/O error the
exception propagates (the `raise` on line 49). -/
def ensure_csv_exists (fs : FileState) (ioFail : Bool) : Except Unit FileState :=
  match fs.rows with
  | some _ => .ok fs
  | none => if ioFail then .error () else .ok ⟨some [FIELDNAMES]⟩

/-- lead_store.py `LeadStore.save_lead`: append one row in `self.fieldnames`
order with `source` fixed to `"telegram"`; any I/O failure is caught and
reported as `false` with the file untouched.  Opening with mode `'a'` appends
to the existing content (creating an empty file first if none exists). -/
def save_lead (fs : FileState) (ioFail : Bool) (timestamp : String)
    (chat_id : Int) (contact intent notes client_name status : String) :
    Bool × FileState :=
  if ioFail then (false, fs)
  else
    (true, ⟨some ((fs.rows.getD []) ++
      [[timestamp, toString chat_id, client_name, contact, intent, notes,
        "telegram", status]])⟩)

/-- lead_store.py `LeadStore.save_lead_from_dialog`: derive `intent` and
`notes` from the session record, then delegate to `save_lead` with
`status="new"`.  `notes` is the stored LLM recommendation when non-empty
(`if not notes:` on a string tests emptiness), otherwise the synthesized
summary with per-field placeholders. -/
def save_lead_from_dialog (fs : FileState) (ioFail : Bool) (timestamp : String)
    (chat_id : Int) (dialog_state : DialogState) (contact client_name : String) :
    Bool × FileState :=
  let intent := (dictGet dialog_state.answers "intent").getD "Не указано"
  let notes0 := dialog_state.last_llm_suggestion
  let notes :=
    if notes0 = "" then
      "Бюджет: " ++ (dictGet dialog_state.answers "budget").getD "не указан" ++
      ", Сроки: " ++ (dictGet dialog_state.answers "timeline").getD "не указаны" ++
      ", Приоритет: " ++ (dictGet dialog_state.answers "priority").getD "не указаны"
    else notes0
  save_lead fs ioFail timestamp chat_id contact intent notes client_name "new"

/-! ### Stage handlers (`bot/handlers.py`)

Each handler returns the updated `dialog_states` mapping, the list of texts
sent, and the list of `update_dialog_stage` arguments in order (the stage
transition log).  The contact-stage handler additionally threads the lead
file.  `g : Option LLMOutcome` is `none` when `get_llm_client()` itself
raises (missing configuration at first use) and `some o` when a client is
obtained and its completion call has outcome `o`. -/

/-- handlers.py `handle_start`. -/
def handle_start (m : StateMap) (chat_id : Int) (now : Nat) :
    StateMap × List String × List Stage :=
  if is_returning_user m chat_id then
    let r := get_dialog_state m chat_id now
    let base := "👋 С возвращением! " ++ get_continuation_message r.2
    match r.2.stage with
    | .qualifying => (r.1, [base, "Выберите вариант или напишите свой:"], [])
    | .offering => (r.1, [base, "Выберите вариант:"], [])
    | _ => (r.1, [base], [])
  else
    let m1 := setState m chat_id (freshState now)
    (update_dialog_stage m1 chat_id .qualifying now, [WELCOME_TEXT], [.qualifying])

/-- handlers.py `handle_reset`: replace the record with a fresh one. -/
def handle_reset (m : StateMap) (chat_id : Int) (now : Nat) :
    StateMap × List String :=
  (setState m chat_id (freshState now),
   ["✅ Диалог сброшен. Напишите /start для начала новой консультации."])

/-- llm_client.py `context` f-string of `handle_offering_stage` (lines
317–322), with the indentation of the triple-quoted literal. -/
def buildContext (st : DialogState) : String :=
  "\n        Потребность клиента: " ++ (dictGet st.answers "intent").getD "не указано" ++
  "\n        Бюджет: " ++ (dictGet st.answers "budget").getD "не указано" ++
  "\n        Сроки: " ++ (dictGet st.answers "timeline").getD "не указано" ++
  "\n        Приоритеты: " ++ (dictGet st.answers "priority").getD "не указано" ++
  "\n        "

/-- handlers.py `handle_offering_stage`.  Inside the `try`, only
`get_llm_client()` can raise (`ask_question` catches internally), so the
`except` branch corresponds exactly to `g = none`; either way the stage is
advanced to `collecting_contact`. -/
def handle_offering_stage (m : StateMap) (chat_id : Int) (user_text : String)
    (g : Option LLMOutcome) (now : Nat) : StateMap × List String × List Stage :=
  let r := get_dialog_state m chat_id now
  match g with
  | some o =>
      let question := RECOMMENDATION_PROMPT ++ "\n\nИнформация о клиенте:\n" ++
        buildContext r.2
      let recommendation := ask_question o question
      let m1 := setState r.1 chat_id { r.2 with last_llm_suggestion := recommendation }
      let response := "📋 Основываясь на ваших ответах, рекомендую:\n\n" ++
        recommendation ++ "\n\nХотели бы оставить контакт для обсуждения деталей?"
      (update_dialog_stage m1 chat_id .collecting_contact now, [response],
       [.collecting_contact])
  | none =>
      (update_dialog_stage r.1 chat_id .collecting_contact now, [FALLBACK_MESSAGE],
       [.collecting_contact])

/-- handlers.py `handle_qualifying_stage`: store the next unanswered key; on
the fourth answer, move to `offering` and run the offering logic synchronously
with the same message. -/
def handle_qualifying_stage (m : StateMap) (chat_id : Int) (user_text : String)
    (g : Option LLMOutcome) (now : Nat) : StateMap × List String × List Stage :=
  let r := get_dialog_state m chat_id now
  if dictGet r.2.answers "intent" = none then
    (save_answer r.1 chat_id "intent" user_text now, [BUDGET_QUESTION], [])
  else if dictGet r.2.answers "budget" = none then
    (save_answer r.1 chat_id "budget" user_text now, [TIMELINE_QUESTION], [])
  else if dictGet r.2.answers "timeline" = none then
    (save_answer r.1 chat_id "timeline" user_text now, [PRIORITY_QUESTION], [])
  else if dictGet r.2.answers "priority" = none then
    let m1 := save_answer r.1 chat_id "priority" user_text now
    let m2 := update_dialog_stage m1 chat_id .offering now
    let o := handle_offering_stage m2 chat_id user_text g now
    (o.1, o.2.1, .offering :: o.2.2)
  else (r.1, [], [])

/-- The affirmative token set of handlers.py line 357. -/
def YES_TOKENS : List String := ["да", "да, оставлю контакт", "да, оставлю"]

/-- The negative token set of handlers.py line 368. -/
def NO_TOKENS : List String := ["нет", "пока не готов", "не готов"]

/-- handlers.py `handle_contact_stage`.  In the fall-through branch the `try`
block first runs `get_lead_store()` — whose lazy construction creates the CSV
file with its header on first use — and then builds the argument list for
`save_lead_from_dialog`, which evaluates the name `state`; that name is
unbound in `handle_contact_stage` (line 388), so a `NameError` is raised
before any row can be appended, the `except` branch selects the degraded
acknowledgment, and the lead file gains no data row. -/
def handle_contact_stage (m : StateMap) (chat_id : Int) (user_text : String)
    (ioFail : Bool) (fs : FileState) (now : Nat) :
    StateMap × List String × List Stage × FileState :=
  if pyLower user_text ∈ YES_TOKENS then
    (m, [CONTACT_REQUEST], [], fs)
  else if pyLower user_text ∈ NO_TOKENS then
    (update_dialog_stage m chat_id .done now, [FAREWELL], [.done], fs)
  else
    let m1 := save_answer m chat_id "contact" user_text now
    let fs1 := match ensure_csv_exists fs ioFail with
      | .ok fs2 => fs2
      | .error _ => fs
    (update_dialog_stage m1 chat_id .done now, [ACK_RECEIVED], [.done], fs1)

/-- handlers.py `handle_any_message`: strip, ignore empty text, fetch or
create the session, and dispatch on its stage (`done`, like any unknown
stage, falls into the final `else` and re-runs `handle_start`). -/
def handle_any_message (m : StateMap) (chat_id : Int) (text : String)
    (g : Option LLMOutcome) (ioFail : Bool) (fs : FileState) (now : Nat) :
    StateMap × List String × List Stage × FileState :=
  let user_text := pyStrip text
  if user_text = "" then (m, [], [], fs)
  else
    let r := get_dialog_state m chat_id now
    match r.2.stage with
    | .greeting =>
        let o := handle_start r.1 chat_id now
        (o.1, o.2.1, o.2.2, fs)
    | .qualifying =>
        let o := handle_qualifying_stage r.1 chat_id user_text g now
        (o.1, o.2.1, o.2.2, fs)
    | .offering =>
        let o := handle_offering_stage r.1 chat_id user_text g now
        (o.1, o.2.1, o.2.2, fs)
    | .collecting_contact => handle_contact_stage r.1 chat_id user_text ioFail fs now
    | .done =>
        let o := handle_start r.1 chat_id now
        (o.1, o.2.1, o.2.2, fs)

/-! ### Helper lemmas -/

/-- Overwriting the matching entries of a dict keeps the first match at the
same position, now carrying the new value. -/
theorem find?_map_overwrite (t : List (String × String)) (k v : String) :
    (t.map (fun q => if q.1 == k then (k, v) else q)).find? (fun q => q.1 == k) =
      (t.find? (fun q => q.1 == k)).map (fun _ => (k, v)) := by
  induction t with
  | nil => rfl
  | cons p t ih =>
      by_cases hp : (p.1 == k) = true
      · rw [List.map_cons, if_pos hp,
            List.find?_cons_of_pos (p := fun q : String × String => q.1 == k) _ (by simp),
            List.find?_cons_of_pos (p := fun q : String × String => q.1 == k) _ hp]
        rfl
      · rw [List.map_cons, if_neg hp,
            List.find?_cons_of_neg (p := fun q : String × String => q.1 == k) _ hp,
            List.find?_cons_of_neg (p := fun q : String × String => q.1 == k) _ hp]
        exact ih

/-- Looking up a key just written by `dictInsert` yields the written value. -/
theorem dictGet_dictInsert_self (d : List (String × String)) (k v : String) :
    dictGet (dictInsert d k v) k = some v := by
  unfold dictGet dictInsert
  by_cases h : ((d.find? (fun p => p.1 == k)).isSome) = true
  · rw [if_pos h, find?_map_overwrite]
    obtain ⟨p, hp⟩ := Option.isSome_iff_exists.mp h
    rw [hp]
    rfl
  · rw [if_neg h, List.find?_append]
    have hnone : d.find? (fun p => p.1 == k) = none :=
      Option.not_isSome_iff_eq_none.mp (by simpa using h)
    rw [hnone]
    simp

/-! ### Claim theorems -/

/-- C3: `ask_question` never raises to its caller: on a transport error, an
empty-choice response, or a malformed payload (absent `message.content`) it
returns the fixed fallback value; and whenever the offering stage runs, the
session is moved to `collecting_contact` whether the gateway returned a real
recommendation or the fallback. -/
theorem ask_question_fallback_and_offering_advances :
    (∀ q, ask_question .raises q = FALLBACK_MESSAGE) ∧
    (∀ q, ask_question .emptyChoices q = FALLBACK_MESSAGE) ∧
    (∀ q, ask_question (.content none) q = FALLBACK_MESSAGE) ∧
    (∀ (m : StateMap) (chat : Int) (txt : String) (g : Option LLMOutcome) (n : Nat),
      ((handle_offering_stage m chat txt g n).1 chat).map DialogState.stage =
        some Stage.collecting_contact) := by
  refine ⟨fun _ => rfl, fun _ => rfl, fun _ => rfl, ?_⟩
  intro m chat txt g n
  cases hm : m chat <;> cases g <;>
    simp [handle_offering_stage, update_dialog_stage, get_dialog_state, setState, hm]

/-- C7: notes derivation when a lead is synthesized from a session: a
non-empty stored recommendation is used verbatim as the appended row's notes;
otherwise the synthesized budget/timeline/priority summary with per-field
placeholders is used. -/
theorem lead_notes_derivation
    (fs : FileState) (ts : String) (chat : Int) (st : DialogState)
    (contact name : String) :
    (st.last_llm_suggestion ≠ "" →
      (save_lead_from_dialog fs false ts chat st contact name).2.rows =
        some ((fs.rows.getD []) ++
          [[ts, toString chat, name, contact,
            (dictGet st.answers "intent").getD "Не указано",
            st.last_llm_suggestion, "telegram", "new"]])) ∧
    (st.last_llm_suggestion = "" →
      (save_lead_from_dialog fs false ts chat st contact name).2.rows =
        some ((fs.rows.getD []) ++
          [[ts, toString chat, name, contact,
            (dictGet st.answers "intent").getD "Не указано",
            "Бюджет: " ++ (dictGet st.answers "budget").getD "не указан" ++
            ", Сроки: " ++ (dictGet st.answers "timeline").getD "не указаны" ++
            ", Приоритет: " ++ (dictGet st.answers "priority").getD "не указаны",
            "telegram", "new"]])) := by
  constructor <;> intro h <;> simp [save_lead_from_dialog, save_lead, h]

/-- Witness for C7 at a concrete session with and without a stored
recommendation. -/
theorem lead_notes_derivation_witness :
    ((⟨.done, [("intent", "Нужен сайт")], "Рекомендация", 0⟩ :
        DialogState).last_llm_suggestion ≠ "") ∧
    (save_lead_from_dialog ⟨some [FIELDNAMES]⟩ false "t0" 42
        ⟨.done, [("intent", "Нужен сайт")], "Рекомендация", 0⟩ "+7 900" "").2.rows =
      some (((⟨some [FIELDNAMES]⟩ : FileState).rows.getD []) ++
        [["t0", toString (42 : Int), "", "+7 900",
          (dictGet [("intent", "Нужен сайт")] "intent").getD "Не указано",
          "Рекомендация", "telegram", "new"]]) :=
  ⟨by decide, (lead_notes_derivation _ _ _ _ _ _).1 (by decide)⟩

/-- C8: the lead sink's append returns a boolean outcome — `false` with the
store untouched on I/O failure; construction creates the backing store with
the fixed header row on first use; and a successful append extends the store
by exactly one data row with `source = "telegram"` and `status = "new"`,
keeping every existing row in place. -/
theorem lead_sink_append_contract
    (fs : FileState) (ts : String) (chat : Int)
    (contact intent notes name : String) :
    ensure_csv_exists ⟨none⟩ false = .ok ⟨some [["timestamp", "chat_id",
      "client_name", "contact", "intent", "notes", "source", "status"]]⟩ ∧
    save_lead fs true ts chat contact intent notes name "new" = (false, fs) ∧
    (save_lead fs false ts chat contact intent notes name "new").1 = true ∧
    (save_lead fs false ts chat contact intent notes name "new").2.rows =
      some ((fs.rows.getD []) ++
        [[ts, toString chat, name, contact, intent, notes, "telegram", "new"]]) :=
  ⟨rfl, rfl, rfl, rfl⟩

/-- C9: constructing the LLM gateway fails when the base URL or the API key
is missing (or empty), and succeeds when both are present. -/
theorem llm_client_config_gate (base_url api_key : Option String) :
    ((base_url.getD "" = "" ∨ api_key.getD "" = "") →
      LLMClient.init base_url api_key =
        .error "LLM_BASE_URL и LLM_API_KEY должны быть установлены в .env") ∧
    (base_url.getD "" ≠ "" → api_key.getD "" ≠ "" →
      LLMClient.init base_url api_key = .ok ()) := by
  constructor
  · intro h
    unfold LLMClient.init
    rw [if_pos h]
  · intro h1 h2
    unfold LLMClient.init
    rw [if_neg (by tauto)]

/-- Witness for C9: missing base URL fails, full configuration succeeds. -/
theorem llm_client_config_gate_witness :
    LLMClient.init none (some "key") =
      .error "LLM_BASE_URL и LLM_API_KEY должны быть установлены в .env" ∧
    LLMClient.init (some "http://llm.local/v1") (some "key") = .ok () :=
  ⟨(llm_client_config_gate none (some "key")).1 (Or.inl rfl),
   (llm_client_config_gate (some "http://llm.local/v1") (some "key")).2
     (by decide) (by decide)⟩

/-- C4: in `collecting_contact`, yes/no matching is exact-match after
lowercasing against the fixed phrase sets: an affirmative token prompts for a
contact method with the session, stage and store untouched; a negative token
sends the farewell, finishes the dialog and writes no lead; and any message
outside both sets is interpreted as the contact value. -/
theorem contact_stage_token_matching
    (m : StateMap) (chat : Int) (st : DialogState) (hm : m chat = some st)
    (hs : st.stage = .collecting_contact) (txt : String) (ht : pyStrip txt = txt)
    (hne : txt ≠ "") (g : Option LLMOutcome) (ioFail : Bool) (fs : FileState)
    (now : Nat) :
    (pyLower txt ∈ YES_TOKENS →
      handle_any_message m chat txt g ioFail fs now = (m, [CONTACT_REQUEST], [], fs)) ∧
    (pyLower txt ∈ NO_TOKENS →
      ((handle_any_message m chat txt g ioFail fs now).1 chat).map DialogState.stage
          = some .done ∧
      (handle_any_message m chat txt g ioFail fs now).2.1 = [FAREWELL] ∧
      (handle_any_message m chat txt g ioFail fs now).2.2.2 = fs ∧
      ((handle_any_message m chat txt g ioFail fs now).1 chat).map DialogState.answers
          = some st.answers) ∧
    (pyLower txt ∉ YES_TOKENS → pyLower txt ∉ NO_TOKENS →
      ((handle_any_message m chat txt g ioFail fs now).1 chat).map DialogState.stage
          = some .done ∧
      ((handle_any_message m chat txt g ioFail fs now).1 chat).map
          (fun s => dictGet s.answers "contact") = some (some txt)) := by
  have hdisp : handle_any_message m chat txt g ioFail fs now =
      handle_contact_stage m chat txt ioFail fs now := by
    simp only [handle_any_message, ht, if_neg hne, get_dialog_state, hm, hs]
  refine ⟨?_, ?_, ?_⟩
  · intro hyes
    rw [hdisp]
    unfold handle_contact_stage
    rw [if_pos hyes]
  · intro hno
    have hyes : pyLower txt ∉ YES_TOKENS := by
      intro hy
      simp only [NO_TOKENS, List.mem_cons, List.not_mem_nil, or_false] at hno
      simp only [YES_TOKENS, List.mem_cons, List.not_mem_nil, or_false] at hy
      rcases hno with h1 | h1 | h1 <;> rcases hy with h2 | h2 | h2 <;>
        (rw [h1] at h2; exact absurd h2 (by decide))
    rw [hdisp]
    unfold handle_contact_stage
    rw [if_neg hyes, if_pos hno]
    refine ⟨?_, rfl, rfl, ?_⟩ <;>
      simp [update_dialog_stage, get_dialog_state, hm, setState]
  · intro hy hn
    rw [hdisp]
    unfold handle_contact_stage
    rw [if_neg hy, if_neg hn]
    constructor
    · simp [save_answer, update_dialog_stage, get_dialog_state, hm, setState]
    · simp [save_answer, update_dialog_stage, get_dialog_state, hm, setState,
            dictGet_dictInsert_self]

/-- Witness for C4 with chat 42 in `collecting_contact` and the message
"Нет" of the spec's first scenario. -/
theorem contact_stage_token_matching_witness :
    (pyLower "Нет" ∈ YES_TOKENS →
      handle_any_message
          (fun c => if c = 42 then
            some ⟨.collecting_contact, [("intent", "Нужен сайт")], "", 0⟩ else none)
          42 "Нет" none false ⟨some [FIELDNAMES]⟩ 1 =
        ((fun c => if c = 42 then
            some ⟨.collecting_contact, [("intent", "Нужен сайт")], "", 0⟩ else none),
         [CONTACT_REQUEST], [], ⟨some [FIELDNAMES]⟩)) ∧
    (pyLower "Нет" ∈ NO_TOKENS →
      ((handle_any_message
          (fun c => if c = 42 then
            some ⟨.collecting_contact, [("intent", "Нужен сайт")], "", 0⟩ else none)
          42 "Нет" none false ⟨some [FIELDNAMES]⟩ 1).1 42).map DialogState.stage
          = some .done ∧
      (handle_any_message
          (fun c => if c = 42 then
            some ⟨.collecting_contact, [("intent", "Нужен сайт")], "", 0⟩ else none)
          42 "Нет" none false ⟨some [FIELDNAMES]⟩ 1).2.1 = [FAREWELL] ∧
      (handle_any_message
          (fun c => if c = 42 then
            some ⟨.collecting_contact, [("intent", "Нужен сайт")], "", 0⟩ else none)
          42 "Нет" none false ⟨some [FIELDNAMES]⟩ 1).2.2.2 = ⟨some [FIELDNAMES]⟩ ∧
      ((handle_any_message
          (fun c => if c = 42 then
            some ⟨.collecting_contact, [("intent", "Нужен сайт")], "", 0⟩ else none)
          42 "Нет" none false ⟨some [FIELDNAMES]⟩ 1).1 42).map DialogState.answers
          = some [("intent", "Нужен сайт")]) ∧
    (pyLower "Нет" ∉ YES_TOKENS → pyLower "Нет" ∉ NO_TOKENS →
      ((handle_any_message
          (fun c => if c = 42 then
            some ⟨.collecting_contact, [("intent", "Нужен сайт")], "", 0⟩ else none)
          42 "Нет" none false ⟨some [FIELDNAMES]⟩ 1).1 42).map DialogState.stage
          = some .done ∧
      ((handle_any_message
          (fun c => if c = 42 then
            some ⟨.collecting_contact, [("intent", "Нужен сайт")], "", 0⟩ else none)
          42 "Нет" none false ⟨some [FIELDNAMES]⟩ 1).1 42).map
          (fun s => dictGet s.answers "contact") = some (some "Нет")) :=
  contact_stage_token_matching _ 42 _ rfl rfl "Нет" (by decide) (by decide)
    none false _ 1

/-- C5: a freshly created session has stage `greeting`, empty answers and an
empty recommendation; and on a session mid-`qualifying`, the reset command
followed by any non-empty message yields a fresh session at `qualifying`
with empty answers, never one retaining old answers. -/
theorem fresh_session_and_reset :
    (∀ (m : StateMap) (chat : Int) (now : Nat), m chat = none →
      (get_dialog_state m chat now).2 =
        { stage := .greeting, answers := [], last_llm_suggestion := "",
          started_at := now }) ∧
    (∀ (m : StateMap) (chat : Int) (st : DialogState), m chat = some st →
      st.stage = .qualifying →
      ∀ (txt : String), pyStrip txt ≠ "" →
      ∀ (g : Option LLMOutcome) (ioFail : Bool) (fs : FileState) (n1 n2 : Nat),
        (handle_reset m chat n1).1 chat =
          some { stage := .greeting, answers := [], last_llm_suggestion := "",
                 started_at := n1 } ∧
        (handle_any_message (handle_reset m chat n1).1 chat txt g ioFail fs n2).1 chat
          = some { stage := .qualifying, answers := [], last_llm_suggestion := "",
                   started_at := n2 }) := by
  constructor
  · intro m chat now h
    simp [get_dialog_state, h, freshState]
  · intro m chat st hm hs txt ht g ioFail fs n1 n2
    constructor
    · simp [handle_reset, setState, freshState]
    · simp [handle_reset, handle_any_message, ht, get_dialog_state, setState,
            handle_start, is_returning_user, update_dialog_stage, freshState]

/-- Witness for C5: a fresh session for chat 7, and reset of a
mid-qualifying session followed by a message. -/
theorem fresh_session_and_reset_witness :
    (get_dialog_state (fun _ => none) 7 3).2 =
      { stage := .greeting, answers := [], last_llm_suggestion := "",
        started_at := 3 } ∧
    (handle_reset (fun c => if c = 7 then
          some ⟨.qualifying, [("intent", "Нужен сайт")], "", 0⟩ else none) 7 1).1 7 =
      some { stage := .greeting, answers := [], last_llm_suggestion := "",
             started_at := 1 } ∧
    (handle_any_message
        (handle_reset (fun c => if c = 7 then
          some ⟨.qualifying, [("intent", "Нужен сайт")], "", 0⟩ else none) 7 1).1
        7 "привет" none false ⟨none⟩ 2).1 7 =
      some { stage := .qualifying, answers := [], last_llm_suggestion := "",
             started_at := 2 } :=
  ⟨fresh_session_and_reset.1 _ 7 3 rfl,
   fresh_session_and_reset.2 _ 7 _ rfl rfl "привет" (by decide) none false ⟨none⟩ 1 2⟩

/-- With the session in `done`, one dispatch of any non-empty message behaves
as first contact: the welcome is sent, the stage log is `[qualifying]`, a
fresh session at `qualifying` replaces the old one, the lead file is
untouched. -/
theorem done_dispatch_first_contact (m : StateMap) (chat : Int)
    (st : DialogState) (hm : m chat = some st) (hs : st.stage = .done)
    (txt : String) (ht : pyStrip txt ≠ "") (g : Option LLMOutcome)
    (ioFail : Bool) (fs : FileState) (now : Nat) :
    (handle_any_message m chat txt g ioFail fs now).2.1 = [WELCOME_TEXT] ∧
    (handle_any_message m chat txt g ioFail fs now).2.2.1 = [Stage.qualifying] ∧
    (handle_any_message m chat txt g ioFail fs now).1 chat =
      some { stage := .qualifying, answers := [], last_llm_suggestion := "",
             started_at := now } ∧
    (handle_any_message m chat txt g ioFail fs now).2.2.2 = fs := by
  simp [handle_any_message, ht, get_dialog_state, hm, hs, handle_start,
        is_returning_user, update_dialog_stage, setState, freshState]

/-- C6: with the session in `done`, any non-empty message reproduces the
first-contact welcome behavior — a fresh session with empty answers is
created and the stage becomes `qualifying` — and a second dispatch performed
when the session is in `done` again produces the same welcome behavior,
neither an error nor a no-op. -/
theorem done_stage_redispatch_welcome (m : StateMap) (chat : Int)
    (st : DialogState) (hm : m chat = some st) (hs : st.stage = .done)
    (txt : String) (ht : pyStrip txt ≠ "") (g : Option LLMOutcome)
    (ioFail : Bool) (fs : FileState) (now : Nat) :
    (handle_any_message m chat txt g ioFail fs now).2.1 = [WELCOME_TEXT] ∧
    (handle_any_message m chat txt g ioFail fs now).1 chat =
      some { stage := .qualifying, answers := [], last_llm_suggestion := "",
             started_at := now } ∧
    (∀ (txt2 : String), pyStrip txt2 ≠ "" →
      ∀ (g2 : Option LLMOutcome) (io2 : Bool) (fs2 : FileState) (n2 n3 : Nat),
      (handle_any_message
          (update_dialog_stage (handle_any_message m chat txt g ioFail fs now).1
            chat .done n2)
          chat txt2 g2 io2 fs2 n3).2.1 = [WELCOME_TEXT] ∧
      (handle_any_message
          (update_dialog_stage (handle_any_message m chat txt g ioFail fs now).1
            chat .done n2)
          chat txt2 g2 io2 fs2 n3).1 chat =
        some { stage := .qualifying, answers := [], last_llm_suggestion := "",
               started_at := n3 }) := by
  obtain ⟨h1, _, h3, _⟩ :=
    done_dispatch_first_contact m chat st hm hs txt ht g ioFail fs now
  refine ⟨h1, h3, ?_⟩
  intro txt2 ht2 g2 io2 fs2 n2 n3
  have hm2 : (update_dialog_stage (handle_any_message m chat txt g ioFail fs now).1
      chat .done n2) chat =
      some { stage := .done, answers := [], last_llm_suggestion := "",
             started_at := now } := by
    simp [update_dialog_stage, get_dialog_state, h3, setState]
  obtain ⟨k1, _, k3, _⟩ :=
    done_dispatch_first_contact _ chat _ hm2 rfl txt2 ht2 g2 io2 fs2 n3
  exact ⟨k1, k3⟩

/-- Witness for C6: chat 9 finished a dialog (stage `done`); two messages,
with the session pushed back to `done` in between, are welcomed both times. -/
theorem done_stage_redispatch_welcome_witness :
    (handle_any_message
        (fun c => if c = 9 then some ⟨.done, [("contact", "+7 900")], "", 0⟩ else none)
        9 "привет" none false ⟨none⟩ 1).2.1 = [WELCOME_TEXT] ∧
    (handle_any_message
        (update_dialog_stage
          (handle_any_message
            (fun c => if c = 9 then some ⟨.done, [("contact", "+7 900")], "", 0⟩ else none)
            9 "привет" none false ⟨none⟩ 1).1 9 .done 2)
        9 "снова привет" none false ⟨none⟩ 3).2.1 = [WELCOME_TEXT] := by
  have h := done_stage_redispatch_welcome
    (fun c => if c = 9 then some ⟨.done, [("contact", "+7 900")], "", 0⟩ else none)
    9 _ rfl rfl "привет" (by decide) none false ⟨none⟩ 1
  exact ⟨h.1, (h.2.2 "снова привет" (by decide) none false ⟨none⟩ 2 3).1⟩

/-- Qualifying step 1: no `intent` yet — store it, ask the budget question,
no stage transition. -/
theorem qualifying_step_intent (m : StateMap) (chat : Int) (st : DialogState)
    (hm : m chat = some st) (h1 : dictGet st.answers "intent" = none)
    (a : String) (g : Option LLMOutcome) (n : Nat) :
    (handle_qualifying_stage m chat a g n).1 chat =
      some { st with answers := dictInsert st.answers "intent" a } ∧
    (handle_qualifying_stage m chat a g n).2.1 = [BUDGET_QUESTION] ∧
    (handle_qualifying_stage m chat a g n).2.2 = [] := by
  simp [handle_qualifying_stage, get_dialog_state, hm, h1, save_answer, setState]

/-- Qualifying step 2: `intent` set, no `budget` — store it, ask the timeline
question, no stage transition. -/
theorem qualifying_step_budget (m : StateMap) (chat : Int) (st : DialogState)
    (hm : m chat = some st) (h1 : dictGet st.answers "intent" ≠ none)
    (h2 : dictGet st.answers "budget" = none)
    (a : String) (g : Option LLMOutcome) (n : Nat) :
    (handle_qualifying_stage m chat a g n).1 chat =
      some { st with answers := dictInsert st.answers "budget" a } ∧
    (handle_qualifying_stage m chat a g n).2.1 = [TIMELINE_QUESTION] ∧
    (handle_qualifying_stage m chat a g n).2.2 = [] := by
  simp [handle_qualifying_stage, get_dialog_state, hm, h1, h2, save_answer, setState]

/-- Qualifying step 3: `timeline` missing — store it, ask the priority
question, no stage transition. -/
theorem qualifying_step_timeline (m : StateMap) (chat : Int) (st : DialogState)
    (hm : m chat = some st) (h1 : dictGet st.answers "intent" ≠ none)
    (h2 : dictGet st.answers "budget" ≠ none)
    (h3 : dictGet st.answers "timeline" = none)
    (a : String) (g : Option LLMOutcome) (n : Nat) :
    (handle_qualifying_stage m chat a g n).1 chat =
      some { st with answers := dictInsert st.answers "timeline" a } ∧
    (handle_qualifying_stage m chat a g n).2.1 = [PRIORITY_QUESTION] ∧
    (handle_qualifying_stage m chat a g n).2.2 = [] := by
  simp [handle_qualifying_stage, get_dialog_state, hm, h1, h2, h3, save_answer,
        setState]

/-- Qualifying step 4: only `priority` missing — store it and synchronously
run the offering logic on the same message: the stage is set to `offering`
and then `collecting_contact`, and exactly one response is sent. -/
theorem qualifying_step_priority (m : StateMap) (chat : Int) (st : DialogState)
    (hm : m chat = some st) (h1 : dictGet st.answers "intent" ≠ none)
    (h2 : dictGet st.answers "budget" ≠ none)
    (h3 : dictGet st.answers "timeline" ≠ none)
    (h4 : dictGet st.answers "priority" = none)
    (a : String) (g : Option LLMOutcome) (n : Nat) :
    ((handle_qualifying_stage m chat a g n).1 chat).map DialogState.stage =
      some .collecting_contact ∧
    ((handle_qualifying_stage m chat a g n).1 chat).map DialogState.answers =
      some (dictInsert st.answers "priority" a) ∧
    (handle_qualifying_stage m chat a g n).2.2 =
      [Stage.offering, Stage.collecting_contact] ∧
    (handle_qualifying_stage m chat a g n).2.1.length = 1 := by
  cases g <;>
    simp [handle_qualifying_stage, handle_offering_stage, get_dialog_state, hm,
          h1, h2, h3, h4, save_answer, update_dialog_stage, setState]

/-- C2: four messages answered in order from a fresh qualifying session move
it `qualifying → offering → collecting_contact` exactly once, the answers
accumulate exactly the keys intent, budget, timeline, priority with the
literal submitted texts, and the fourth message both stores the priority and
synchronously runs the offering logic, sending one response and asking no
further question. -/
theorem qualifying_four_in_order
    (m : StateMap) (chat : Int) (rc : String) (t0 : Nat)
    (hm : m chat = some { stage := .qualifying, answers := [],
                          last_llm_suggestion := rc, started_at := t0 })
    (a1 a2 a3 a4 : String) (g : Option LLMOutcome) (n1 n2 n3 n4 : Nat) :
    (handle_qualifying_stage m chat a1 g n1).2.1 = [BUDGET_QUESTION] ∧
    (handle_qualifying_stage m chat a1 g n1).2.2 = [] ∧
    ((handle_qualifying_stage m chat a1 g n1).1 chat).map DialogState.stage =
      some .qualifying ∧
    (handle_qualifying_stage (handle_qualifying_stage m chat a1 g n1).1
        chat a2 g n2).2.1 = [TIMELINE_QUESTION] ∧
    (handle_qualifying_stage (handle_qualifying_stage m chat a1 g n1).1
        chat a2 g n2).2.2 = [] ∧
    ((handle_qualifying_stage (handle_qualifying_stage m chat a1 g n1).1
        chat a2 g n2).1 chat).map DialogState.stage = some .qualifying ∧
    (handle_qualifying_stage (handle_qualifying_stage
        (handle_qualifying_stage m chat a1 g n1).1 chat a2 g n2).1
        chat a3 g n3).2.1 = [PRIORITY_QUESTION] ∧
    (handle_qualifying_stage (handle_qualifying_stage
        (handle_qualifying_stage m chat a1 g n1).1 chat a2 g n2).1
        chat a3 g n3).2.2 = [] ∧
    ((handle_qualifying_stage (handle_qualifying_stage
        (handle_qualifying_stage m chat a1 g n1).1 chat a2 g n2).1
        chat a3 g n3).1 chat).map DialogState.stage = some .qualifying ∧
    (handle_qualifying_stage (handle_qualifying_stage (handle_qualifying_stage
        (handle_qualifying_stage m chat a1 g n1).1 chat a2 g n2).1
        chat a3 g n3).1 chat a4 g n4).2.2 =
      [Stage.offering, Stage.collecting_contact] ∧
    ((handle_qualifying_stage (handle_qualifying_stage (handle_qualifying_stage
        (handle_qualifying_stage m chat a1 g n1).1 chat a2 g n2).1
        chat a3 g n3).1 chat a4 g n4).1 chat).map DialogState.stage =
      some .collecting_contact ∧
    ((handle_qualifying_stage (handle_qualifying_stage (handle_qualifying_stage
        (handle_qualifying_stage m chat a1 g n1).1 chat a2 g n2).1
        chat a3 g n3).1 chat a4 g n4).1 chat).map DialogState.answers =
      some [("intent", a1), ("budget", a2), ("timeline", a3), ("priority", a4)] ∧
    (handle_qualifying_stage (handle_qualifying_stage (handle_qualifying_stage
        (handle_qualifying_stage m chat a1 g n1).1 chat a2 g n2).1
        chat a3 g n3).1 chat a4 g n4).2.1.length = 1 := by
  obtain ⟨k1, s1, l1⟩ := qualifying_step_intent m chat _ hm rfl a1 g n1
  obtain ⟨k2, s2, l2⟩ := qualifying_step_budget _ chat _ k1
    (by simp [dictGet, dictInsert]) (by simp [dictGet, dictInsert]) a2 g n2
  obtain ⟨k3, s3, l3⟩ := qualifying_step_timeline _ chat _ k2
    (by simp [dictGet, dictInsert]) (by simp [dictGet, dictInsert])
    (by simp [dictGet, dictInsert]) a3 g n3
  obtain ⟨k4, k5, k6, k7⟩ := qualifying_step_priority _ chat _ k3
    (by simp [dictGet, dictInsert]) (by simp [dictGet, dictInsert])
    (by simp [dictGet, dictInsert]) (by simp [dictGet, dictInsert]) a4 g n4
  refine ⟨s1, l1, by rw [k1]; rfl, s2, l2, by rw [k2]; rfl, s3, l3,
          by rw [k3]; rfl, k6, k4, ?_, k7⟩
  rw [k5]
  simp [dictInsert]

/-- Witness for C2 at a concrete chat and four concrete answers. -/
theorem qualifying_four_in_order_witness :
    (handle_qualifying_stage (fun c => if c = 7 then some (⟨Stage.qualifying, [], "", 0⟩ : DialogState) else none) 7 "с" none 1).2.1 = [BUDGET_QUESTION] ∧
    (handle_qualifying_stage (fun c => if c = 7 then some (⟨Stage.qualifying, [], "", 0⟩ : DialogState) else none) 7 "с" none 1).2.2 = [] ∧
    ((handle_qualifying_stage (fun c => if c = 7 then some (⟨Stage.qualifying, [], "", 0⟩ : DialogState) else none) 7 "с" none 1).1 7).map DialogState.stage = some .qualifying ∧
    (handle_qualifying_stage (handle_qualifying_stage (fun c => if c = 7 then some (⟨Stage.qualifying, [], "", 0⟩ : DialogState) else none) 7 "с" none 1).1 7 "б" none 2).2.1 = [TIMELINE_QUESTION] ∧
    (handle_qualifying_stage (handle_qualifying_stage (fun c => if c = 7 then some (⟨Stage.qualifying, [], "", 0⟩ : DialogState) else none) 7 "с" none 1).1 7 "б" none 2).2.2 = [] ∧
    ((handle_qualifying_stage (handle_qualifying_stage (fun c => if c = 7 then some (⟨Stage.qualifying, [], "", 0⟩ : DialogState) else none) 7 "с" none 1).1 7 "б" none 2).1 7).map DialogState.stage = some .qualifying ∧
    (handle_qualifying_stage (handle_qualifying_stage (handle_qualifying_stage (fun c => if c = 7 then some (⟨Stage.qualifying, [], "", 0⟩ : DialogState) else none) 7 "с" none 1).1 7 "б" none 2).1 7 "в" none 3).2.1 = [PRIORITY_QUESTION] ∧
    (handle_qualifying_stage (handle_qualifying_stage (handle_qualifying_stage (fun c => if c = 7 then some (⟨Stage.qualifying, [], "", 0⟩ : DialogState) else none) 7 "с" none 1).1 7 "б" none 2).1 7 "в" none 3).2.2 = [] ∧
    ((handle_qualifying_stage (handle_qualifying_stage (handle_qualifying_stage (fun c => if c = 7 then some (⟨Stage.qualifying, [], "", 0⟩ : DialogState) else none) 7 "с" none 1).1 7 "б" none 2).1 7 "в" none 3).1 7).map DialogState.stage = some .qualifying ∧
    (handle_qualifying_stage (handle_qualifying_stage (handle_qualifying_stage (handle_qualifying_stage (fun c => if c = 7 then some (⟨Stage.qualifying, [], "", 0⟩ : DialogState) else none) 7 "с" none 1).1 7 "б" none 2).1 7 "в" none 3).1 7 "п" none 4).2.2 = [Stage.offering, Stage.collecting_contact] ∧
    ((handle_qualifying_stage (handle_qualifying_stage (handle_qualifying_stage (handle_qualifying_stage (fun c => if c = 7 then some (⟨Stage.qualifying, [], "", 0⟩ : DialogState) else none) 7 "с" none 1).1 7 "б" none 2).1 7 "в" none 3).1 7 "п" none 4).1 7).map DialogState.stage = some .collecting_contact ∧
    ((handle_qualifying_stage (handle_qualifying_stage (handle_qualifying_stage (handle_qualifying_stage (fun c => if c = 7 then some (⟨Stage.qualifying, [], "", 0⟩ : DialogState) else none) 7 "с" none 1).1 7 "б" none 2).1 7 "в" none 3).1 7 "п" none 4).1 7).map DialogState.answers = some [("intent", "с"), ("budget", "б"), ("timeline", "в"), ("priority", "п")] ∧
    (handle_qualifying_stage (handle_qualifying_stage (handle_qualifying_stage (handle_qualifying_stage (fun c => if c = 7 then some (⟨Stage.qualifying, [], "", 0⟩ : DialogState) else none) 7 "с" none 1).1 7 "б" none 2).1 7 "в" none 3).1 7 "п" none 4).2.1.length = 1 :=
  qualifying_four_in_order (fun c => if c = 7 then some (⟨Stage.qualifying, [], "", 0⟩ : DialogState) else none) 7 "" 0 rfl "с" "б" "в" "п" none 1 2 3 4

/-- C1: evaluation at the failing input.  Chat 42 is in `collecting_contact`
with all four qualifying answers collected and sends the contact message
"+7 900 000 00 00": the engine stores the text under `contact`, sends the
(degraded) acknowledgment and sets the stage to `done` — but the lead file
is left exactly as it was, with no row appended, because the write in
`handle_contact_stage` evaluates the unbound name `state`
(handlers.py line 388) and dies with `NameError` before
`save_lead_from_dialog` can run. -/
theorem contact_capture_appends_no_lead :
    (handle_any_message
        (fun c => if c = 42 then
          some (⟨.collecting_contact,
                 [("intent", "Нужен сайт"), ("budget", "До 100,000 руб"),
                  ("timeline", "В течение месяца"), ("priority", "Качество")],
                 "", 0⟩ : DialogState)
         else none)
        42 "+7 900 000 00 00" none false ⟨some [FIELDNAMES]⟩ 1).2.2.2 =
      ⟨some [FIELDNAMES]⟩ ∧
    ((handle_any_message
        (fun c => if c = 42 then
          some (⟨.collecting_contact,
                 [("intent", "Нужен сайт"), ("budget", "До 100,000 руб"),
                  ("timeline", "В течение месяца"), ("priority", "Качество")],
                 "", 0⟩ : DialogState)
         else none)
        42 "+7 900 000 00 00" none false ⟨some [FIELDNAMES]⟩ 1).1 42).map
        DialogState.stage = some .done ∧
    ((handle_any_message
        (fun c => if c = 42 then
          some (⟨.collecting_contact,
                 [("intent", "Нужен сайт"), ("budget", "До 100,000 руб"),
                  ("timeline", "В течение месяца"), ("priority", "Качество")],
                 "", 0⟩ : DialogState)
         else none)
        42 "+7 900 000 00 00" none false ⟨some [FIELDNAMES]⟩ 1).1 42).map
        (fun s => dictGet s.answers "contact") = some (some "+7 900 000 00 00") ∧
    (handle_any_message
        (fun c => if c = 42 then
          some (⟨.collecting_contact,
                 [("intent", "Нужен сайт"), ("budget", "До 100,000 руб"),
                  ("timeline", "В течение месяца"), ("priority", "Качество")],
                 "", 0⟩ : DialogState)
         else none)
        42 "+7 900 000 00 00" none false ⟨some [FIELDNAMES]⟩ 1).2.1 =
      [ACK_RECEIVED] := by decide

/-- C10: after an offering turn in which the gateway object was obtained, the
session's `last_llm_suggestion` is exactly the string `ask_question`
returned — the fixed fallback included when the completion call failed
internally — hence non-empty, and a lead synthesized from the resulting
session carries that text verbatim as its notes; when obtaining the gateway
itself raises, `last_llm_suggestion` is left unchanged. -/
theorem offering_records_recommendation
    (m : StateMap) (chat : Int) (st : DialogState) (hm : m chat = some st)
    (txt : String) (o : LLMOutcome) (n : Nat)
    (fs : FileState) (ts contact name : String) :
    ((handle_offering_stage m chat txt (some o) n).1 chat).map
        DialogState.last_llm_suggestion =
      some (ask_question o (RECOMMENDATION_PROMPT ++ "\n\nИнформация о клиенте:\n" ++
        buildContext st)) ∧
    ask_question o (RECOMMENDATION_PROMPT ++ "\n\nИнформация о клиенте:\n" ++
      buildContext st) ≠ "" ∧
    (∀ st2, (handle_offering_stage m chat txt (some o) n).1 chat = some st2 →
      (save_lead_from_dialog fs false ts chat st2 contact name).2.rows =
        some ((fs.rows.getD []) ++
          [[ts, toString chat, name, contact,
            (dictGet st2.answers "intent").getD "Не указано",
            ask_question o (RECOMMENDATION_PROMPT ++ "\n\nИнформация о клиенте:\n" ++
              buildContext st), "telegram", "new"]])) ∧
    ((handle_offering_stage m chat txt none n).1 chat).map
        DialogState.last_llm_suggestion = some st.last_llm_suggestion := by
  have hne : ∀ q : String, ask_question o q ≠ "" := by
    intro q
    cases o with
    | raises => exact (by decide : FALLBACK_MESSAGE ≠ "")
    | emptyChoices => exact (by decide : FALLBACK_MESSAGE ≠ "")
    | content c =>
        cases c with
        | none => exact (by decide : FALLBACK_MESSAGE ≠ "")
        | some s =>
            simp only [ask_question]
            split
            · decide
            · assumption
  have hlook : (handle_offering_stage m chat txt (some o) n).1 chat =
      some ⟨.collecting_contact, st.answers,
        ask_question o (RECOMMENDATION_PROMPT ++ "\n\nИнформация о клиенте:\n" ++
          buildContext st), st.started_at⟩ := by
    simp [handle_offering_stage, get_dialog_state, hm, update_dialog_stage, setState]
  refine ⟨by rw [hlook]; rfl, hne _, ?_, ?_⟩
  · intro st2 h2
    rw [hlook] at h2
    obtain rfl : st2 = ⟨.collecting_contact, st.answers,
        ask_question o (RECOMMENDATION_PROMPT ++ "\n\nИнформация о клиенте:\n" ++
          buildContext st), st.started_at⟩ := (Option.some.injEq _ _).mp h2.symm
    simp [save_lead_from_dialog, save_lead, hne]
  · simp [handle_offering_stage, get_dialog_state, hm, update_dialog_stage, setState]

/-- Witness for C10: gateway obtained but completion call raises — the
fallback is recorded and flows verbatim into the synthesized lead's notes. -/
theorem offering_records_recommendation_witness :
    ((handle_offering_stage
        (fun c => if c = 5 then
          some (⟨.offering, [("intent", "И"), ("budget", "Б"), ("timeline", "В"),
                 ("priority", "П")], "", 0⟩ : DialogState) else none)
        5 "П" (some .raises) 1).1 5).map DialogState.last_llm_suggestion =
      some FALLBACK_MESSAGE ∧
    FALLBACK_MESSAGE ≠ "" ∧
    (save_lead_from_dialog ⟨some [FIELDNAMES]⟩ false "t" 5
        ⟨.collecting_contact, [("intent", "И"), ("budget", "Б"), ("timeline", "В"),
           ("priority", "П")], FALLBACK_MESSAGE, 0⟩ "+7" "").2.rows =
      some ([FIELDNAMES] ++
        [["t", toString (5 : Int), "", "+7", "И", FALLBACK_MESSAGE,
          "telegram", "new"]]) ∧
    ((handle_offering_stage
        (fun c => if c = 5 then
          some (⟨.offering, [("intent", "И"), ("budget", "Б"), ("timeline", "В"),
                 ("priority", "П")], "", 0⟩ : DialogState) else none)
        5 "П" none 1).1 5).map DialogState.last_llm_suggestion = some "" := by
  have h := offering_records_recommendation
    (fun c => if c = 5 then
      some (⟨.offering, [("intent", "И"), ("budget", "Б"), ("timeline", "В"),
             ("priority", "П")], "", 0⟩ : DialogState) else none)
    5 _ rfl "П" .raises 1 ⟨some [FIELDNAMES]⟩ "t" "+7" ""
  exact ⟨h.1, h.2.1,
    h.2.2.1 ⟨.collecting_contact, [("intent", "И"), ("budget", "Б"),
      ("timeline", "В"), ("priority", "П")], FALLBACK_MESSAGE, 0⟩ (by decide),
    h.2.2.2⟩

end LlmStart
